import Mathlib

/-!
Verification of the section-aware comparison engine and summary workflow of
the `confluence_summarizer` repository.

The definitions below are a shallow embedding of the Python source:

* `agent/base.py`   — `_analyze_section_changes`, `_calculate_comparison_stats`
* `agent/summarizer.py` — the five workflow stages and their wiring

together with a model of the parts of Python's standard library the code
uses: `str.split`, `str.splitlines`, `str.strip`, `re.split(r"(?=## )", ...)`
and `difflib.unified_diff` (via `SequenceMatcher`).  Strings contain only
ASCII text with `\n` line breaks, matching every input the claims exercise.
-/

set_option maxRecDepth 8192

namespace ConfluenceSummarizer

/-! ## Python string primitives -/

/-- Python `s.split(c)` for a single-character separator, on character
lists: splits at every occurrence, keeping empty pieces. -/
def splitCharsOn (sep : Char) : List Char → List (List Char)
  | [] => [[]]
  | c :: rest =>
    if c = sep then [] :: splitCharsOn sep rest
    else
      match splitCharsOn sep rest with
      | [] => [[c]]
      | x :: xs => (c :: x) :: xs

/-- Python `s.split("\n")`: like `splitCharsOn` but on `String`. -/
def pySplitNl (s : String) : List String :=
  (splitCharsOn (Char.ofNat 10) s.data).map String.mk

/-- Python `s.splitlines()` restricted to `\n` line breaks (the only line
breaks occurring in this repository's data): like `split("\n")` but the
empty string yields `[]` and a trailing line break produces no final empty
line. -/
def pySplitlines (s : String) : List String :=
  if s.data = [] then []
  else
    let parts := splitCharsOn (Char.ofNat 10) s.data
    (if parts.getLast? = some [] then parts.dropLast else parts).map String.mk

/-- Drop the characters of `cs` from the front of a list. -/
def dropLeading (cs : List Char) : List Char → List Char
  | [] => []
  | c :: rest => if c ∈ cs then dropLeading cs rest else c :: rest

/-- Python `s.strip(chars)`: remove the characters of `cs` from both ends. -/
def pyStrip (cs : List Char) (s : String) : String :=
  String.mk ((dropLeading cs ((dropLeading cs s.data).reverse)).reverse)

/-- The characters removed by Python's no-argument `str.strip()` (ASCII
whitespace; the inputs in this development contain only spaces, tabs and
line feeds). -/
def wsChars : List Char := [' ', Char.ofNat 9, Char.ofNat 10, Char.ofNat 13]

/-- Python `s.strip()`. -/
def pyStripWs (s : String) : String := pyStrip wsChars s

/-- Does `hay` start with `needle`? -/
def startsWithChars : List Char → List Char → Bool
  | [], _ => true
  | _ :: _, [] => false
  | n :: ns, h :: hs => n = h && startsWithChars ns hs

/-- Does the list contain `needle` as a contiguous sublist (Python's
`needle in hay`)? -/
def hasSubChars (needle : List Char) : List Char → Bool
  | [] => startsWithChars needle []
  | c :: rest => startsWithChars needle (c :: rest) || hasSubChars needle rest

/-- Python `sub in s` on strings. -/
def containsStr (s sub : String) : Bool := hasSubChars sub.data s.data

/-- Python `s.split(sep)` for a non-empty separator string: scan left to
right, splitting at each non-overlapping occurrence.  The first argument
is fuel bounding the recursion; every step consumes at least one character,
so `l.length + 1` fuel always suffices. -/
def splitOnSubGo (sep : List Char) : Nat → List Char → List Char → List (List Char)
  | 0, l, acc => [acc.reverse ++ l]
  | _ + 1, [], acc => [acc.reverse]
  | fuel + 1, c :: rest, acc =>
    if startsWithChars sep (c :: rest) then
      acc.reverse :: splitOnSubGo sep fuel (rest.drop (sep.length - 1)) []
    else
      splitOnSubGo sep fuel rest (c :: acc)

/-- Python `s.split(sep)` on strings (`sep` non-empty). -/
def pySplitOnStr (sep s : String) : List String :=
  (splitOnSubGo sep.data (s.data.length + 1) s.data []).map String.mk

/-- Python newline-joining of a list of lines. -/
def joinNl : List String → String
  | [] => ""
  | [x] => x
  | x :: xs => x ++ "\n" ++ joinNl xs

/-! ## The section splitter of `_calculate_comparison_stats`

`re.split(r"(?=## )", content)` splits `content` before every position at
which the substring `"## "` starts (a zero-width lookahead), including a
position in the middle of a line and including position `0`, which then
produces a leading empty piece. -/

/-- Does the list start with `'#', '#', ' '`? -/
def headingAt : List Char → Bool
  | '#' :: '#' :: ' ' :: _ => true
  | _ => false

/-- Is there any position at which `"## "` starts? -/
def hasHeadingOcc : List Char → Bool
  | [] => false
  | c :: rest => headingAt (c :: rest) || hasHeadingOcc rest

/-- Worker for `re.split(r"(?=## )", ...)`: `acc` holds the current piece
reversed. A piece is closed before every position where `"## "` begins. -/
def reSplitHeadingGo : List Char → List Char → List (List Char)
  | [], acc => [acc.reverse]
  | c :: rest, acc =>
    if headingAt (c :: rest) then acc.reverse :: reSplitHeadingGo rest [c]
    else reSplitHeadingGo rest (c :: acc)

/-- `re.split(r"(?=## )", content)` from `_calculate_comparison_stats`. -/
def splitSections (content : String) : List String :=
  (reSplitHeadingGo content.data []).map String.mk

/-- The first line of a piece: Python `s.split("\n")[0]`. -/
def firstLineOf (s : String) : String :=
  String.mk (s.data.takeWhile (fun c => c ≠ Char.ofNat 10))

/-- The characters stripped from a section title: `strip("# ")`. -/
def hashSpaceChars : List Char := ['#', ' ']

/-- `s.split("\n")[0].strip("# ")` — the title the source computes for a
section piece. Note `strip` removes `'#'` and `' '` from BOTH ends. -/
def sectionTitle (s : String) : String :=
  pyStrip hashSpaceChars (firstLineOf s)

/-- `s.split("\n")[1:]` — the body lines of a section piece (everything
after its first line). -/
def sectionBody (s : String) : List String :=
  (pySplitNl s).tail

/-! ## `difflib` model

`_calculate_comparison_stats` and `_compare_summaries` call
`difflib.unified_diff(old_lines, new_lines, lineterm='')` with the default
file names, dates and context size `n = 3`.  The definitions below follow
CPython's `difflib.SequenceMatcher` (with no junk: `isjunk=None`, and the
`autojunk` popularity heuristic never fires because every sequence involved
is far shorter than 200 lines) and `difflib.unified_diff`. -/

/-- Length of the longest common run of equal elements at the heads of the
two lists. -/
def commonRunLen : List String → List String → Nat
  | a :: as, b :: bs => if a = b then commonRunLen as bs + 1 else 0
  | _, _ => 0

/-- `count` naturals starting at `start`, ascending. -/
def natsFrom (start : Nat) : Nat → List Nat
  | 0 => []
  | n + 1 => start :: natsFrom (start + 1) n

/-- Row `i` of the match-candidate table: for every start position `j` in
`b`, the triple `(i, j, run length from (i, j))`. -/
def candidatesRow (a b : List String) (i : Nat) : List (Nat × Nat × Nat) :=
  (natsFrom 0 (b.length + 1)).map (fun j => (i, j, commonRunLen (a.drop i) (b.drop j)))

/-- All match candidates in `SequenceMatcher.find_longest_match`'s scan
order: `i` ascending, then `j` ascending. -/
def candidates (a b : List String) : List (Nat × Nat × Nat) :=
  ((natsFrom 0 (a.length + 1)).map (candidatesRow a b)).flatten

/-- Keep the incumbent unless the challenger is strictly longer — the
tie-breaking of `find_longest_match` (earliest `i`, then earliest `j`). -/
def pickBest (best c : Nat × Nat × Nat) : Nat × Nat × Nat :=
  if best.2.2 < c.2.2 then c else best

/-- `SequenceMatcher.find_longest_match` over whole lists (no junk): the
longest matching block `(i, j, size)`, ties resolved to the smallest `i`
and then the smallest `j`. -/
def longestMatch (a b : List String) : Nat × Nat × Nat :=
  (candidates a b).foldl pickBest (0, 0, 0)

/-- The recursive block collection of `SequenceMatcher.get_matching_blocks`
(produced here directly in sorted order).  `fuel` only bounds the
recursion; `a.length + b.length + 1` is always sufficient because each
recursive call strictly shrinks `a.length + b.length`. -/
def matchingBlocksCore : Nat → List String → List String → Nat → Nat → List (Nat × Nat × Nat)
  | 0, _, _, _, _ => []
  | fuel + 1, a, b, i0, j0 =>
    match longestMatch a b with
    | (i, j, k) =>
      if k = 0 then []
      else
        matchingBlocksCore fuel (a.take i) (b.take j) i0 j0
          ++ (i0 + i, j0 + j, k)
            :: matchingBlocksCore fuel (a.drop (i + k)) (b.drop (j + k)) (i0 + i + k) (j0 + j + k)

/-- The adjacent-block merge pass of `get_matching_blocks` (a no-op
without junk, kept for fidelity), fed the running block `(i1, j1, k1)`. -/
def mergeBlocks : Nat × Nat × Nat → List (Nat × Nat × Nat) → List (Nat × Nat × Nat)
  | (i1, j1, k1), [] => if k1 = 0 then [] else [(i1, j1, k1)]
  | (i1, j1, k1), (i2, j2, k2) :: rest =>
    if i1 + k1 = i2 ∧ j1 + k1 = j2 then mergeBlocks (i1, j1, k1 + k2) rest
    else (if k1 = 0 then [] else [(i1, j1, k1)]) ++ mergeBlocks (i2, j2, k2) rest

/-- `SequenceMatcher.get_matching_blocks`: the merged blocks followed by
the terminal sentinel `(len(a), len(b), 0)`. -/
def matchingBlocks (a b : List String) : List (Nat × Nat × Nat) :=
  mergeBlocks (0, 0, 0) (matchingBlocksCore (a.length + b.length + 1) a b 0 0)
    ++ [(a.length, b.length, 0)]

/-- The tags of `SequenceMatcher.get_opcodes`. -/
inductive Tag where
  | equal
  | replace
  | delete
  | insert
deriving DecidableEq

/-- One opcode `(tag, i1, i2, j1, j2)`. -/
structure Opcode where
  tag : Tag
  i1 : Nat
  i2 : Nat
  j1 : Nat
  j2 : Nat
deriving DecidableEq

/-- The loop of `SequenceMatcher.get_opcodes` over the matching blocks,
carrying the current positions `i`, `j`. -/
def opcodesLoop : Nat → Nat → List (Nat × Nat × Nat) → List Opcode
  | _, _, [] => []
  | i, j, (ai, bj, size) :: rest =>
    (if i < ai ∧ j < bj then [⟨Tag.replace, i, ai, j, bj⟩]
     else if i < ai then [⟨Tag.delete, i, ai, j, bj⟩]
     else if j < bj then [⟨Tag.insert, i, ai, j, bj⟩]
     else [])
      ++ (if size = 0 then [] else [⟨Tag.equal, ai, ai + size, bj, bj + size⟩])
      ++ opcodesLoop (ai + size) (bj + size) rest

/-- `SequenceMatcher.get_opcodes`. -/
def opcodes (a b : List String) : List Opcode :=
  opcodesLoop 0 0 (matchingBlocks a b)

/-- `get_grouped_opcodes`: clip a leading `equal` opcode to at most `n`
context lines. -/
def trimHead (n : Nat) : List Opcode → List Opcode
  | ⟨Tag.equal, i1, i2, j1, j2⟩ :: rest =>
    ⟨Tag.equal, max i1 (i2 - n), i2, max j1 (j2 - n), j2⟩ :: rest
  | l => l

/-- `get_grouped_opcodes`: clip a trailing `equal` opcode to at most `n`
context lines. -/
def trimTail (n : Nat) (l : List Opcode) : List Opcode :=
  match l.reverse with
  | ⟨Tag.equal, i1, i2, j1, j2⟩ :: rest =>
    (Opcode.mk Tag.equal i1 (min i2 (i1 + n)) j1 (min j2 (j1 + n)) :: rest).reverse
  | r => r.reverse

/-- The grouping loop of `get_grouped_opcodes`: a group is emitted whenever
an `equal` opcode spans more than `2 * n` lines, and the final group is
emitted unless it is a single `equal` opcode. -/
def groupLoop (n : Nat) : List Opcode → List Opcode → List (List Opcode)
  | [], group =>
    match group with
    | [] => []
    | [g] => if g.tag = Tag.equal then [] else [[g]]
    | gs => [gs]
  | c :: rest, group =>
    if c.tag = Tag.equal ∧ 2 * n < c.i2 - c.i1 then
      (group ++ [⟨Tag.equal, c.i1, min c.i2 (c.i1 + n), c.j1, min c.j2 (c.j1 + n)⟩])
        :: groupLoop n rest [⟨Tag.equal, max c.i1 (c.i2 - n), c.i2, max c.j1 (c.j2 - n), c.j2⟩]
    else groupLoop n rest (group ++ [c])

/-- `SequenceMatcher.get_grouped_opcodes(n)` applied to a precomputed
opcode list. -/
def groupedOpcodes (n : Nat) (codes0 : List Opcode) : List (List Opcode) :=
  let codes1 := if codes0 = [] then [⟨Tag.equal, 0, 1, 0, 1⟩] else codes0
  groupLoop n (trimTail n (trimHead n codes1)) []

/-- `difflib._format_range_unified`. -/
def fmtRangeUnified (start stop : Nat) : String :=
  let len := stop - start
  if len = 1 then toString (start + 1)
  else toString (if len = 0 then start else start + 1) ++ "," ++ toString len

/-- `l[x:y]`. -/
def slice (l : List String) (x y : Nat) : List String :=
  (l.drop x).take (y - x)

/-- The per-opcode line rendering of `difflib.unified_diff`. -/
def renderOp (a b : List String) (c : Opcode) : List String :=
  match c.tag with
  | Tag.equal => (slice a c.i1 c.i2).map (" " ++ ·)
  | Tag.replace => (slice a c.i1 c.i2).map ("-" ++ ·) ++ (slice b c.j1 c.j2).map ("+" ++ ·)
  | Tag.delete => (slice a c.i1 c.i2).map ("-" ++ ·)
  | Tag.insert => (slice b c.j1 c.j2).map ("+" ++ ·)

/-- One hunk of `difflib.unified_diff`: the `@@` header then the rendered
opcodes. -/
def renderGroup (a b : List String) (g : List Opcode) : List String :=
  let first := g.headD ⟨Tag.equal, 0, 0, 0, 0⟩
  let last := g.getLastD ⟨Tag.equal, 0, 0, 0, 0⟩
  ("@@ -" ++ fmtRangeUnified first.i1 last.i2 ++ " +" ++ fmtRangeUnified first.j1 last.j2 ++ " @@")
    :: (g.map (renderOp a b)).flatten

/-- `list(difflib.unified_diff(a, b, lineterm=''))` with the default empty
file names and dates and `n = 3`: empty when the sequences are equal,
otherwise the two header lines followed by the rendered hunks. -/
def unifiedDiff (a b : List String) : List String :=
  let groups := groupedOpcodes 3 (opcodes a b)
  if groups = [] then []
  else "--- " :: "+++ " :: (groups.map (renderGroup a b)).flatten

/-! ## The comparison engine: `_calculate_comparison_stats` (`agent/base.py`)

The Change Annotator `_analyze_section_changes` builds a prompt and invokes
the text-generation backend; that call is modelled as an opaque parameter
`annot : String → String → Except String String`, where `Except.error e`
stands for the call raising an exception whose `str` is `e`. -/

/-- `_analyze_section_changes`: on success the analysis is returned
stripped of surrounding whitespace; any exception is caught and turned
into the error-marker string `"Error analyzing changes: " ++ e`. -/
def analyzeSectionChanges (annot : String → String → Except String String)
    (old_section new_section : String) : String :=
  match annot old_section new_section with
  | Except.ok analysis => pyStripWs analysis
  | Except.error e => "Error analyzing changes: " ++ e

/-- The titles of a document's section pieces, in document order, keeping
only pieces that are non-empty after `strip()` (Python's
`{s.split("\n")[0].strip("# ") for s in sections if s.strip()}`, before
its set conversion). -/
def titleList (content : String) : List String :=
  ((splitSections content).filter (fun s => pyStripWs s ≠ "")).map sectionTitle

/-- The Python title set of one document version. -/
def titleFinset (content : String) : Finset String :=
  (titleList content).toFinset

/-- `new_section_titles - old_section_titles`. -/
def addedTitleSet (old_content new_content : String) : Finset String :=
  titleFinset new_content \ titleFinset old_content

/-- `old_section_titles - new_section_titles`. -/
def removedTitleSet (old_content new_content : String) : Finset String :=
  titleFinset old_content \ titleFinset new_content

/-- `old_section_titles & new_section_titles` — the set whose SIZE the
source stores as `stats["changed_sections"]`. -/
def commonTitleSet (old_content new_content : String) : Finset String :=
  titleFinset old_content ∩ titleFinset new_content

/-- The common titles as a list.  Python iterates the set
`old_section_titles & new_section_titles` in an unspecified order; this
fixes one deterministic order (first occurrence in the old document).
Every property proved below about `section_changes` is independent of
this order. -/
def commonTitleList (old_content new_content : String) : List String :=
  (titleList old_content).dedup.filter (fun t => decide (t ∈ titleFinset new_content))

/-- `next(s for s in sections if s.split("\n")[0].strip("# ") == section)`:
the first piece (NOT filtered by `s.strip()`) whose title matches.  For a
title drawn from the title set a match always exists, so the `""` default
is never used there. -/
def findSection (content t : String) : String :=
  ((splitSections content).find? (fun s => sectionTitle s = t)).getD ""

/-- One entry of `stats["section_changes"]`; the field `title` is the
Python dict key `"section"`. -/
structure SectionChange where
  title : String
  old_line_count : Nat
  new_line_count : Nat
  diff_line_count : Nat
  change_summary : String
deriving DecidableEq

/-- The `stats` dict returned by `_calculate_comparison_stats`. -/
structure ComparisonStats where
  old_line_count : Nat
  new_line_count : Nat
  line_difference : Int
  changed_sections : Nat
  added_sections : Nat
  removed_sections : Nat
  section_changes : List SectionChange
deriving DecidableEq

/-- The loop body of `_calculate_comparison_stats` for one common title:
diff the two bodies; when the unified diff is empty (`if diff:` false,
which happens exactly when the bodies are equal) no entry is appended,
otherwise the entry records the body line counts, `len(diff)` — the
number of lines of the unified-diff OUTPUT, headers included — and the
annotator's summary. -/
def sectionChangeFor (annot : String → String → Except String String)
    (old_content new_content t : String) : Option SectionChange :=
  let old_lines := sectionBody (findSection old_content t)
  let new_lines := sectionBody (findSection new_content t)
  let d := unifiedDiff old_lines new_lines
  if d = [] then none
  else
    some ⟨t, old_lines.length, new_lines.length, d.length,
      analyzeSectionChanges annot (joinNl old_lines) (joinNl new_lines)⟩

/-- `_calculate_comparison_stats(old_content, new_content)`. -/
def calcComparisonStats (annot : String → String → Except String String)
    (old_content new_content : String) : ComparisonStats :=
  { old_line_count := (pySplitlines old_content).length
    new_line_count := (pySplitlines new_content).length
    line_difference :=
      ((pySplitlines new_content).length : Int) - ((pySplitlines old_content).length : Int)
    changed_sections := (commonTitleSet old_content new_content).card
    added_sections := (addedTitleSet old_content new_content).card
    removed_sections := (removedTitleSet old_content new_content).card
    section_changes :=
      (commonTitleList old_content new_content).filterMap
        (sectionChangeFor annot old_content new_content) }

/-- The titles of the reported `section_changes` entries, as a set. -/
def changedTitleSet (annot : String → String → Except String String)
    (old_content new_content : String) : Finset String :=
  ((calcComparisonStats annot old_content new_content).section_changes.map
    (fun c => c.title)).toFinset

/-! ## The summary workflow (`agent/summarizer.py`)

`_create_agent_graph` wires the five stages as an unconditional linear
chain `load_content → prepare_documents → generate_summary →
compare_summaries → export_summary` (plain `add_edge` calls, no
conditional routing), each stage receiving and returning the shared state.
`summarize` seeds the state with one human message whose content is
`json.dumps` of the parameter dict.

External collaborators are parameters: `fetch` models
`ConfluenceDocumentLoader.load_content`, `llm` models the prompt/LLM/parse
chain of `_generate_summary` (including the persona lookup), `annot` the
Change Annotator backend.  `Except.error e` models the call raising an
exception whose `str` is `e`.  The persistent store is the export
directory's file listing, a list of `(filename, contents)` pairs. -/

/-- The parameter dict `summarize` serialises into the first message. -/
structure Params where
  space_key : String
  page_id : Option String
  include_children : Bool
  persona : String
  context : Option String
  export_flag : Bool
  export_dir : String
deriving DecidableEq

/-- The metadata dict of a loaded document (the fields the workflow
reads: `metadata.get("space_key", "unknown")`, `metadata.get("id")`,
`metadata.get("title", ...)`). -/
structure Metadata where
  space_key : Option String := none
  id : Option String := none
  title : Option String := none
deriving DecidableEq

/-- A loaded document. -/
structure Document where
  page_content : String
  metadata : Metadata
deriving DecidableEq

/-- The content of one chat message.  The initial human message holds the
JSON-serialised parameter dict; every message a stage appends is plain
prose (`.text`). -/
inductive MsgContent where
  | params (p : Params)
  | text (s : String)
deriving DecidableEq

/-- The `AgentState` dict threaded through the graph.  The field
`previous_summary` exists in the source `TypedDict` but is never written
by any stage (`_compare_summaries` only uses a local variable of that
name). -/
structure AgentState where
  messages : List MsgContent
  documents : List Document
  summary : Option String
  metadata : Metadata
  export_path : Option String
  previous_summary : Option String
  diff_result : Option String
  comparison_stats : Option ComparisonStats
deriving DecidableEq

/-- Append an `AIMessage` to the state. -/
def appendMsg (st : AgentState) (s : String) : AgentState :=
  { st with messages := st.messages ++ [MsgContent.text s] }

/-- Last element of a non-empty message list, carrying the head. -/
def lastMsgFrom (m : MsgContent) : List MsgContent → MsgContent
  | [] => m
  | m2 :: rest => lastMsgFrom m2 rest

/-- `messages[-1]` (the stages never run on an empty message list: the
initial state has one message and stages only append). -/
def lastMsg : List MsgContent → MsgContent
  | [] => MsgContent.text ""
  | m :: rest => lastMsgFrom m rest

/-- The message of `json.JSONDecodeError` for a document starting with a
letter — which every AI status/error message the stages append does. -/
def jsonDecodeErrorMsg : String := "Expecting value: line 1 column 1 (char 0)"

/-- `json.loads(last_message.content)`: succeeds exactly on the initial
parameter message; on any of the prose messages the stages append it
raises `json.JSONDecodeError`. -/
def jsonLoadsParams : MsgContent → Except String Params
  | MsgContent.params p => Except.ok p
  | MsgContent.text _ => Except.error jsonDecodeErrorMsg

/-- A single quote character, used in Python exception messages. -/
def sq : String := String.mk [Char.ofNat 39]

/-- `str(NameError)` for the name `unified_diff`: `agent/summarizer.py`
never imports `unified_diff` (only `agent/base.py` does, into its own
module namespace), so evaluating `unified_diff(...)` in
`_compare_summaries` raises this `NameError`. -/
def nameErrUnifiedDiff : String :=
  "name " ++ sq ++ "unified_diff" ++ sq ++ " is not defined"

/-- `str(NameError)` for the name `os`: `agent/summarizer.py` never
imports `os`, so evaluating `os.getlogin()` in the export content template
raises this `NameError`. -/
def nameErrOs : String := "name " ++ sq ++ "os" ++ sq ++ " is not defined"

/-- `str(AttributeError)` raised by `_calculate_comparison_stats` when it
is passed `None` as `new_content` (i.e. `state["summary"]` was never
set). -/
def noneSplitlinesMsg : String :=
  sq ++ "NoneType" ++ sq ++ " object has no attribute " ++ sq ++ "splitlines" ++ sq

/-- `_load_content`: parse the parameters from the last message, fetch the
documents, store them, and take the first document's metadata; any
exception is caught and reported as a message. -/
def loadContent (fetch : String → Option String → Bool → Except String (List Document))
    (st : AgentState) : AgentState :=
  match jsonLoadsParams (lastMsg st.messages) with
  | Except.error e => appendMsg st ("Error loading content: " ++ e)
  | Except.ok p =>
    match fetch p.space_key p.page_id p.include_children with
    | Except.error e => appendMsg st ("Error loading content: " ++ e)
    | Except.ok documents =>
      let st1 := { st with documents := documents }
      match documents with
      | [] => st1
      | d :: _ => { st1 with metadata := d.metadata }

/-- `_prepare_documents`: unconditionally appends a status message (its
`try` body cannot raise). -/
def prepareDocuments (st : AgentState) : AgentState :=
  appendMsg st "Documents loaded successfully. Preparing for summarization..."

/-- `_generate_summary`: re-parses the parameters from the last message —
which, after `_prepare_documents`, is always a prose message, so in a real
run this stage always takes the error branch — then invokes the LLM chain
on the joined document contents. -/
def generateSummary (llm : Params → String → Except String String)
    (st : AgentState) : AgentState :=
  match jsonLoadsParams (lastMsg st.messages) with
  | Except.error e => appendMsg st ("Error generating summary: " ++ e)
  | Except.ok p =>
    match llm p (joinNl (st.documents.map (fun d => d.page_content))) with
    | Except.error e => appendMsg st ("Error generating summary: " ++ e)
    | Except.ok summary =>
      { appendMsg st "Summary generated successfully." with summary := some summary }

/-- Does a filename match the glob `pre + "*" + suf`? -/
def globMatch (pre suf name : String) : Bool :=
  decide (pre.data.length + suf.data.length ≤ name.data.length)
    && startsWithChars pre.data name.data
    && startsWithChars suf.data.reverse name.data.reverse

/-- Python string `<`: lexicographic comparison of code points, a proper
prefix comparing smaller. -/
def charsLt : List Char → List Char → Bool
  | [], [] => false
  | [], _ :: _ => true
  | _ :: _, [] => false
  | a :: as, b :: bs =>
    if a.toNat < b.toNat then true
    else if b.toNat < a.toNat then false
    else charsLt as bs

/-- Python `x < y` on strings. -/
def strLt (x y : String) : Bool := charsLt x.data y.data

/-- Insert into a descending-sorted list (Python
`sorted(..., reverse=True)` on path strings). -/
def insertDesc (x : String) : List String → List String
  | [] => [x]
  | y :: ys => if strLt y x then x :: y :: ys else y :: insertDesc x ys

/-- Sort filenames in descending lexicographic order. -/
def sortDesc (l : List String) : List String := l.foldr insertDesc []

/-- `previous_file.read_text()`: look a file's contents up in the store
(the name always comes from the store's own listing). -/
def readFile (store : List (String × String)) (name : String) : String :=
  match store.find? (fun f => f.1 = name) with
  | some f => f.2
  | none => ""

/-- `previous_summary.split("## Summary")[1].split("##")[0].strip()` —
extract the summary section of a prior export (guarded by the caller's
`"## Summary" in previous_summary` check, so index 1 exists). -/
def extractSummary (s : String) : String :=
  pyStripWs (((pySplitOnStr "##" ((pySplitOnStr "## Summary" s).getD 1 ""))).headD "")

/-- `_compare_summaries`: re-parse the parameters (in a real run this
always fails, because the last message is `_generate_summary`'s prose
message); glob `{space_key}_{page_id}_*.md` (or `{space_key}_space_*.md`)
in the export directory, sort the matches descending and — only when there
is MORE than one match — read `previous_files[1]`, the second entry
(the code's comment says this skips "the current file", but this stage
runs BEFORE `_export_summary`, so no current-run file exists yet).  If the
file contains `"## Summary"`, the extracted old summary is compared
against `state["summary"]` and the stats stored; the following
`unified_diff(...)` call then raises `NameError` (never imported here),
caught by the stage's handler, so `diff_result` is never assigned. -/
def compareSummaries (annot : String → String → Except String String)
    (store : List (String × String)) (st : AgentState) : AgentState :=
  match jsonLoadsParams (lastMsg st.messages) with
  | Except.error e => appendMsg st ("Error comparing summaries: " ++ e)
  | Except.ok _ =>
    let space_key := st.metadata.space_key.getD "unknown"
    let pre :=
      match st.metadata.id with
      | some pid => space_key ++ "_" ++ pid ++ "_"
      | none => space_key ++ "_space_"
    let matching := (store.map (fun f => f.1)).filter (globMatch pre ".md")
    match sortDesc matching with
    | _ :: previous_file :: _ =>
      let previous_summary := readFile store previous_file
      if containsStr previous_summary "## Summary" then
        match st.summary with
        | none => appendMsg st ("Error comparing summaries: " ++ noneSplitlinesMsg)
        | some summ =>
          let stats := calcComparisonStats annot (extractSummary previous_summary) summ
          let st1 := { st with comparison_stats := some stats }
          appendMsg st1 ("Error comparing summaries: " ++ nameErrUnifiedDiff)
      else st
    | _ => st

/-- `_export_summary`: re-parse the parameters (in a real run this always
fails); when `export` is false return unchanged; otherwise the directory
is created and timestamp and filename are computed (no observable effect),
and building the content evaluates `os.getlogin()`, raising `NameError`
(`os` is never imported in this module) — caught by the handler, so no
file is written and `export_path` is never assigned. -/
def exportSummary (st : AgentState) (store : List (String × String)) :
    AgentState × List (String × String) :=
  match jsonLoadsParams (lastMsg st.messages) with
  | Except.error e => (appendMsg st ("Error exporting summary: " ++ e), store)
  | Except.ok p =>
    if p.export_flag = false then (st, store)
    else (appendMsg st ("Error exporting summary: " ++ nameErrOs), store)

/-- The initial state built by `summarize`. -/
def initialState (p : Params) : AgentState :=
  { messages := [MsgContent.params p]
    documents := []
    summary := none
    metadata := {}
    export_path := none
    previous_summary := none
    diff_result := none
    comparison_stats := none }

/-- One full run of the compiled graph: the five stages in their wired
order, over the store as it exists when the run starts. -/
def runPipeline (fetch : String → Option String → Bool → Except String (List Document))
    (llm : Params → String → Except String String)
    (annot : String → String → Except String String)
    (p : Params) (store : List (String × String)) :
    AgentState × List (String × String) :=
  exportSummary
    (compareSummaries annot store
      (generateSummary llm
        (prepareDocuments
          (loadContent fetch (initialState p)))))
    store

/-! ## Concrete collaborators and fixtures used in the theorems below -/

/-- A Change Annotator backend that always raises (`str(e) = "boom"`). -/
def annotRaises : String → String → Except String String :=
  fun _ _ => Except.error "boom"

/-- A Change Annotator backend that always answers. -/
def annotFine : String → String → Except String String :=
  fun _ _ => Except.ok " fine "

/-- A Content Source whose fetch always raises. -/
def fetchFails : String → Option String → Bool → Except String (List Document) :=
  fun _ _ _ => Except.error "Page not found"

/-- A text-generation backend that always answers. -/
def llmFixed : Params → String → Except String String :=
  fun _ _ => Except.ok "GENERATED SUMMARY"

/-- Run parameters for a page summarization with export enabled. -/
def paramsSP : Params :=
  { space_key := "SP", page_id := some "p1", include_children := false
    persona := "technical", context := none, export_flag := true
    export_dir := "summaries" }

/-- Metadata of the loaded page. -/
def mdSP : Metadata := { space_key := some "SP", id := some "p1", title := some "T" }

/-- A state about to enter `_compare_summaries`/`_export_summary` in the
claims' intended scenario: the parameters are still readable from the last
message and a summary has been generated.  (In a real run neither holds —
see the pipeline theorems — so this state exercises exactly the behavior
the claims describe.) -/
def stWithSummary : AgentState :=
  { messages := [MsgContent.params paramsSP]
    documents := []
    summary := some "## Intro\nNew body"
    metadata := mdSP
    export_path := none
    previous_summary := none
    diff_result := none
    comparison_stats := none }

/-- A prior export of the same page, as `_export_summary` is meant to have
written it. -/
def priorExportA : String :=
  "# T\n\n## Metadata\n- Author: alice\n\n## Summary\nOld text\n"

/-- A more recent prior export of the same page. -/
def priorExportB : String :=
  "# T\n\n## Metadata\n- Author: alice\n\n## Summary\nNewer old\n"

/-- An export directory holding exactly one prior export for the page. -/
def storeOne : List (String × String) := [("SP_p1_20240101_000000.md", priorExportA)]

/-- An export directory holding two prior exports for the page. -/
def storeTwo : List (String × String) :=
  [("SP_p1_20240101_000000.md", priorExportA), ("SP_p1_20240102_000000.md", priorExportB)]

/-- Everything a `section_changes` entry records except the annotator's
`change_summary`. -/
def SectionChange.shape (c : SectionChange) : String × Nat × Nat × Nat :=
  (c.title, c.old_line_count, c.new_line_count, c.diff_line_count)

/-! ## General lemmas -/

theorem commonRunLen_self : ∀ l : List String, commonRunLen l l = l.length
  | [] => rfl
  | a :: as => by simp [commonRunLen, commonRunLen_self as]

theorem commonRunLen_le_length : ∀ u v : List String, commonRunLen u v ≤ u.length
  | [], _ => Nat.le_refl 0
  | _ :: _, [] => Nat.zero_le _
  | a :: as, b :: bs => by
    simp only [commonRunLen]
    split
    · exact Nat.succ_le_succ (commonRunLen_le_length as bs)
    · exact Nat.zero_le _

theorem foldl_pickBest_fixed :
    ∀ (l : List (Nat × Nat × Nat)) (x : Nat × Nat × Nat),
      (∀ c ∈ l, c.2.2 ≤ x.2.2) → l.foldl pickBest x = x := by
  intro l
  induction l with
  | nil => intro x _; rfl
  | cons c cs ih =>
    intro x h
    have hc : c.2.2 ≤ x.2.2 := h c (List.mem_cons_self c cs)
    have hpb : pickBest x c = x := by
      unfold pickBest
      rw [if_neg (Nat.not_lt.mpr hc)]
    rw [List.foldl_cons, hpb]
    exact ih x (fun d hd => h d (List.mem_cons_of_mem c hd))

theorem mem_candidates_elim {a b : List String} {c : Nat × Nat × Nat}
    (hc : c ∈ candidates a b) :
    ∃ i j, c = (i, j, commonRunLen (a.drop i) (b.drop j)) := by
  unfold candidates at hc
  obtain ⟨row, hrow, hcrow⟩ := List.mem_flatten.mp hc
  obtain ⟨i, _, rfl⟩ := List.mem_map.mp hrow
  obtain ⟨j, _, rfl⟩ := List.mem_map.mp hcrow
  exact ⟨i, j, rfl⟩

theorem longestMatch_self (x : List String) : longestMatch x x = (0, 0, x.length) := by
  have hbound : ∀ c ∈ candidates x x, c.2.2 ≤ x.length := by
    intro c hc
    obtain ⟨i, j, rfl⟩ := mem_candidates_elim hc
    exact Nat.le_trans (commonRunLen_le_length _ _) (by simp [List.length_drop])
  have hstruct : ∃ tail, candidates x x = (0, 0, x.length) :: tail := by
    unfold candidates candidatesRow
    rw [show natsFrom 0 (x.length + 1) = 0 :: natsFrom 1 x.length from rfl]
    simp only [List.map_cons, List.flatten_cons, List.drop_zero, commonRunLen_self,
      List.cons_append]
    exact ⟨_, rfl⟩
  obtain ⟨tail, hstruct⟩ := hstruct
  unfold longestMatch
  rw [hstruct, List.foldl_cons]
  have hpb : pickBest (0, 0, 0) (0, 0, x.length) = (0, 0, x.length) := by
    rcases Nat.eq_zero_or_pos x.length with h0 | hpos
    · simp [pickBest, h0]
    · simp [pickBest, hpos]
  rw [hpb]
  apply foldl_pickBest_fixed
  intro c hc
  exact hbound c (by rw [hstruct]; exact List.mem_cons_of_mem _ hc)

theorem matchingBlocksCore_nil (fuel i0 j0 : Nat) :
    matchingBlocksCore (fuel + 1) [] [] i0 j0 = [] := rfl

theorem matchingBlocksCore_self (x : List String) (hx : x ≠ []) (fuel : Nat) :
    matchingBlocksCore (fuel + 2) x x 0 0 = [(0, 0, x.length)] := by
  have hlen : x.length ≠ 0 := by simpa using hx
  show matchingBlocksCore (fuel + 1 + 1) x x 0 0 = _
  unfold matchingBlocksCore
  rw [longestMatch_self]
  dsimp only
  rw [if_neg hlen]
  simp [List.take_zero, List.drop_length, matchingBlocksCore_nil]

theorem matchingBlocks_self_ne (x : List String) (hx : x ≠ []) :
    matchingBlocks x x = [(0, 0, x.length), (x.length, x.length, 0)] := by
  have hlen : x.length ≠ 0 := by simpa using hx
  unfold matchingBlocks
  rw [show x.length + x.length + 1 = (x.length + x.length - 1) + 2 by omega,
    matchingBlocksCore_self x hx]
  simp [mergeBlocks, hlen]

theorem opcodes_self_ne (x : List String) (hx : x ≠ []) :
    opcodes x x = [⟨Tag.equal, 0, x.length, 0, x.length⟩] := by
  unfold opcodes
  rw [matchingBlocks_self_ne x hx]
  simp [opcodesLoop, by simpa using hx]

theorem grouped_single_equal (len : Nat) :
    groupedOpcodes 3 [⟨Tag.equal, 0, len, 0, len⟩] = [] := by
  have h1 : ¬ (2 * 3 < min len (len - 3 + 3) - (len - 3)) := by omega
  unfold groupedOpcodes trimHead trimTail
  simp [groupLoop, h1]

theorem unifiedDiff_self (x : List String) : unifiedDiff x x = [] := by
  by_cases hx : x = []
  · subst hx; rfl
  · unfold unifiedDiff
    rw [opcodes_self_ne x hx, grouped_single_equal]
    simp

theorem sectionChangeFor_none_of_bodies_eq
    (annot : String → String → Except String String) (o n t : String)
    (h : sectionBody (findSection o t) = sectionBody (findSection n t)) :
    sectionChangeFor annot o n t = none := by
  simp [sectionChangeFor, h, unifiedDiff_self]

theorem sectionChangeFor_title
    {annot : String → String → Except String String} {o n t : String} {c : SectionChange}
    (h : sectionChangeFor annot o n t = some c) : c.title = t := by
  unfold sectionChangeFor at h
  by_cases hd :
      unifiedDiff (sectionBody (findSection o t)) (sectionBody (findSection n t)) = []
  · simp [hd] at h
  · simp only [hd, if_neg, ite_false] at h
    cases h
    rfl

theorem mem_section_changes_title
    {annot : String → String → Except String String} {o n : String} {c : SectionChange}
    (hc : c ∈ (calcComparisonStats annot o n).section_changes) :
    c.title ∈ commonTitleList o n ∧ sectionChangeFor annot o n c.title = some c := by
  unfold calcComparisonStats at hc
  dsimp only at hc
  obtain ⟨t, htl, hsome⟩ := List.mem_filterMap.mp hc
  have ht : c.title = t := sectionChangeFor_title hsome
  rw [ht]
  exact ⟨htl, hsome⟩

theorem mem_commonTitleList {o n t : String} (h : t ∈ commonTitleList o n) :
    t ∈ titleFinset o ∧ t ∈ titleFinset n := by
  unfold commonTitleList at h
  obtain ⟨h1, h2⟩ := List.mem_filter.mp h
  refine ⟨?_, of_decide_eq_true h2⟩
  unfold titleFinset
  rw [List.mem_toFinset]
  exact List.mem_dedup.mp h1

theorem title_not_mem_changed_of_bodies_eq
    (annot : String → String → Except String String) (o n t : String)
    (h : sectionBody (findSection o t) = sectionBody (findSection n t)) :
    t ∉ changedTitleSet annot o n := by
  intro hmem
  unfold changedTitleSet at hmem
  rw [List.mem_toFinset] at hmem
  obtain ⟨c, hc, hct⟩ := List.mem_map.mp hmem
  obtain ⟨_, hsome⟩ := mem_section_changes_title hc
  rw [hct] at hsome
  rw [sectionChangeFor_none_of_bodies_eq annot o n t h] at hsome
  exact Option.noConfusion hsome

theorem sectionChangeFor_shape (f g : String → String → Except String String)
    (o n t : String) :
    (sectionChangeFor f o n t).map SectionChange.shape
      = (sectionChangeFor g o n t).map SectionChange.shape := by
  unfold sectionChangeFor
  by_cases hd :
      unifiedDiff (sectionBody (findSection o t)) (sectionBody (findSection n t)) = []
  · simp [hd]
  · simp [hd, SectionChange.shape]

theorem filterMap_sectionChangeFor_shape (f g : String → String → Except String String)
    (o n : String) :
    ∀ l : List String,
      (l.filterMap (sectionChangeFor f o n)).map SectionChange.shape
        = (l.filterMap (sectionChangeFor g o n)).map SectionChange.shape := by
  intro l
  induction l with
  | nil => simp only [List.filterMap_nil, List.map_nil]
  | cons t ts ih =>
    have h := sectionChangeFor_shape f g o n t
    rw [List.filterMap_cons, List.filterMap_cons]
    generalize hA : sectionChangeFor f o n t = a at h
    generalize hB : sectionChangeFor g o n t = b at h
    cases a <;> cases b <;> simp_all

theorem sectionChanges_shape_indep (f g : String → String → Except String String)
    (o n : String) :
    ((calcComparisonStats f o n).section_changes).map SectionChange.shape
      = ((calcComparisonStats g o n).section_changes).map SectionChange.shape := by
  unfold calcComparisonStats
  dsimp only
  exact filterMap_sectionChangeFor_shape f g o n _

theorem sectionChangeFor_error_annot (o n e t : String)
    (f g : String → String → Except String String)
    (hf : ∀ a b, f a b = Except.error e) :
    sectionChangeFor f o n t
      = (sectionChangeFor g o n t).map
          (fun c => { c with change_summary := "Error analyzing changes: " ++ e }) := by
  unfold sectionChangeFor
  by_cases hd :
      unifiedDiff (sectionBody (findSection o t)) (sectionBody (findSection n t)) = []
  · simp [hd]
  · simp [hd, analyzeSectionChanges, hf]

theorem filterMap_error_annot (o n e : String)
    (f g : String → String → Except String String)
    (hf : ∀ a b, f a b = Except.error e) :
    ∀ l : List String,
      l.filterMap (sectionChangeFor f o n)
        = (l.filterMap (sectionChangeFor g o n)).map
            (fun c => { c with change_summary := "Error analyzing changes: " ++ e }) := by
  intro l
  induction l with
  | nil => simp only [List.filterMap_nil, List.map_nil]
  | cons t ts ih =>
    rw [List.filterMap_cons, List.filterMap_cons,
      sectionChangeFor_error_annot o n e t f g hf]
    generalize sectionChangeFor g o n t = b
    cases b <;> simp [ih]

/-! ## Claim theorems -/

/-- Claim C10 (confirmed): for every report produced by
`_calculate_comparison_stats`, `line_difference` equals
`new_line_count - old_line_count`, and those two counts are the
full-document `splitlines()` counts of the new and old texts respectively
(not sums over section diffs). -/
theorem c10_line_difference (annot : String → String → Except String String)
    (old_content new_content : String) :
    (calcComparisonStats annot old_content new_content).line_difference
        = ((calcComparisonStats annot old_content new_content).new_line_count : Int)
          - ((calcComparisonStats annot old_content new_content).old_line_count : Int)
    ∧ (calcComparisonStats annot old_content new_content).old_line_count
        = (pySplitlines old_content).length
    ∧ (calcComparisonStats annot old_content new_content).new_line_count
        = (pySplitlines new_content).length :=
  ⟨rfl, rfl, rfl⟩

/-- Claim C7 (confirmed): if the Change Annotator raises (an annotator
returning `Except.error e`), the comparison still returns a complete
report: it is identical to the report produced with ANY other annotator
except that every reported section's `change_summary` is the error-marker
string `"Error analyzing changes: " ++ str(e)`.  In particular no
exception escapes and no section is dropped. -/
theorem c7_annotator_failure_isolated (o n e : String)
    (f g : String → String → Except String String)
    (hf : ∀ a b, f a b = Except.error e) :
    calcComparisonStats f o n
      = { calcComparisonStats g o n with
          section_changes :=
            ((calcComparisonStats g o n).section_changes).map
              (fun c => { c with change_summary := "Error analyzing changes: " ++ e }) } := by
  unfold calcComparisonStats
  dsimp only
  rw [ComparisonStats.mk.injEq]
  exact ⟨rfl, rfl, rfl, rfl, rfl, rfl, filterMap_error_annot o n e f g hf _⟩

/-- Witness for C7: the always-raising annotator (`str(e) = "boom"`)
against an always-answering one, on a document pair with one changed
section. -/
theorem c7_annotator_failure_isolated_witness :
    calcComparisonStats annotRaises "## A\nx\ny" "## A\nx\nz"
      = { calcComparisonStats annotFine "## A\nx\ny" "## A\nx\nz" with
          section_changes :=
            ((calcComparisonStats annotFine "## A\nx\ny" "## A\nx\nz").section_changes).map
              (fun c => { c with change_summary := "Error analyzing changes: " ++ "boom" }) } :=
  c7_annotator_failure_isolated "## A\nx\ny" "## A\nx\nz" "boom" annotRaises annotFine
    (fun _ _ => rfl)

/-- Claim C1 counterexample: comparing the one-section document "## A\nx"
with itself, the title "A" occurs in both versions but belongs to NONE of
the three groups — added and removed are empty and no changed section is
reported — so the three groups do not cover `old_titles ∪ new_titles`. -/
theorem c1_partition_counterexample :
    "A" ∈ titleFinset "## A\nx" ∪ titleFinset "## A\nx"
    ∧ addedTitleSet "## A\nx" "## A\nx" = ∅
    ∧ removedTitleSet "## A\nx" "## A\nx" = ∅
    ∧ changedTitleSet annotRaises "## A\nx" "## A\nx" = ∅ := by
  decide

/-- Claim C1 amended: `added`, `removed` and the COMMON title set (the set
whose size the code reports as `changed_sections`) are pairwise disjoint
and partition `old_titles ∪ new_titles`; the titles of the reported
`section_changes` entries are only a SUBSET of the common titles — a
common title whose section is unchanged belongs to none of the three
reported groups. -/
theorem c1_partition_amended (annot : String → String → Except String String)
    (o n : String) :
    addedTitleSet o n ∩ removedTitleSet o n = ∅
    ∧ addedTitleSet o n ∩ commonTitleSet o n = ∅
    ∧ removedTitleSet o n ∩ commonTitleSet o n = ∅
    ∧ addedTitleSet o n ∪ removedTitleSet o n ∪ commonTitleSet o n
        = titleFinset o ∪ titleFinset n
    ∧ (calcComparisonStats annot o n).changed_sections = (commonTitleSet o n).card
    ∧ changedTitleSet annot o n ⊆ commonTitleSet o n := by
  refine ⟨?_, ?_, ?_, ?_, rfl, ?_⟩
  · ext t
    simp only [addedTitleSet, removedTitleSet, Finset.mem_inter, Finset.mem_sdiff,
      Finset.not_mem_empty, iff_false]
    tauto
  · ext t
    simp only [addedTitleSet, commonTitleSet, Finset.mem_inter, Finset.mem_sdiff,
      Finset.not_mem_empty, iff_false]
    tauto
  · ext t
    simp only [removedTitleSet, commonTitleSet, Finset.mem_inter, Finset.mem_sdiff,
      Finset.not_mem_empty, iff_false]
    tauto
  · ext t
    simp only [addedTitleSet, removedTitleSet, commonTitleSet, Finset.mem_union,
      Finset.mem_inter, Finset.mem_sdiff]
    tauto
  · intro t ht
    unfold changedTitleSet at ht
    rw [List.mem_toFinset] at ht
    obtain ⟨c, hc, rfl⟩ := List.mem_map.mp ht
    obtain ⟨hl, _⟩ := mem_section_changes_title hc
    exact Finset.mem_inter.mpr (mem_commonTitleList hl)

/-- Claim C2 counterexample: comparing "## Intro\nHello" against an
identical copy, the report's `changed_sections` field is 1 — the code
counts every common title, changed or not — and not 0 as the claim
requires. -/
theorem c2_unchanged_counterexample :
    (calcComparisonStats annotRaises "## Intro\nHello" "## Intro\nHello").changed_sections = 1
    ∧ (calcComparisonStats annotRaises "## Intro\nHello" "## Intro\nHello").changed_sections
        ≠ 0 := by
  decide

/-- Claim C2 amended: a common section whose bodies are equal (equivalently
whose unified diff is empty) is excluded from the reported
`section_changes` LIST; for the identical one-section documents that list
is empty and `added_sections = removed_sections = 0` — but the numeric
`changed_sections` field counts every common title and equals 1, not 0. -/
theorem c2_unchanged_excluded_amended
    (annot : String → String → Except String String) (o n t : String)
    (hbody : sectionBody (findSection o t) = sectionBody (findSection n t)) :
    t ∉ changedTitleSet annot o n
    ∧ (calcComparisonStats annot "## Intro\nHello" "## Intro\nHello").section_changes = []
    ∧ (calcComparisonStats annot "## Intro\nHello" "## Intro\nHello").added_sections = 0
    ∧ (calcComparisonStats annot "## Intro\nHello" "## Intro\nHello").removed_sections = 0
    ∧ (calcComparisonStats annot "## Intro\nHello" "## Intro\nHello").changed_sections = 1 := by
  refine ⟨title_not_mem_changed_of_bodies_eq annot o n t hbody, ?_, ?_, ?_, ?_⟩
  · have h := sectionChanges_shape_indep annot annotRaises "## Intro\nHello" "## Intro\nHello"
    have h2 : ((calcComparisonStats annotRaises "## Intro\nHello"
        "## Intro\nHello").section_changes).map SectionChange.shape = [] := by decide
    rw [h2] at h
    exact List.map_eq_nil_iff.mp h
  · show (addedTitleSet "## Intro\nHello" "## Intro\nHello").card = 0
    decide
  · show (removedTitleSet "## Intro\nHello" "## Intro\nHello").card = 0
    decide
  · show (commonTitleSet "## Intro\nHello" "## Intro\nHello").card = 1
    decide

/-- Witness for C2's amended theorem at the concrete inputs of the claim's
scenario: the common title "Intro" (with equal bodies) is reported in no
changed-section entry and the entry list is empty. -/
theorem c2_unchanged_excluded_amended_witness :
    "Intro" ∉ changedTitleSet annotRaises "## Intro\nHello" "## Intro\nHello"
    ∧ (calcComparisonStats annotRaises "## Intro\nHello" "## Intro\nHello").section_changes
        = [] :=
  ⟨(c2_unchanged_excluded_amended annotRaises "## Intro\nHello" "## Intro\nHello" "Intro"
      rfl).1,
   (c2_unchanged_excluded_amended annotRaises "## Intro\nHello" "## Intro\nHello" "Intro"
      rfl).2.1⟩

/-- Claim C3 counterexample: for the common section "A" with old body
`["x","y"]` and new body `["x","z"]`, the reported `diff_line_count` is 6
— the number of lines of the unified-diff OUTPUT, headers included — and
not the signed value `new - old = 0` the claim requires. -/
theorem c3_diff_line_count_counterexample :
    ((calcComparisonStats annotRaises "## A\nx\ny" "## A\nx\nz").section_changes.map
      (fun c => c.diff_line_count)) = [6] := by
  decide

/-- Claim C3 amended: the unified diff computed for the section is the
6-line output whose first three lines are the `---`, `+++` and `@@`
headers and whose remaining lines are context(x), delete(y), insert(z);
the reported entry stores the body line counts 2 and 2 and
`diff_line_count = 6` — the LENGTH of that output, not `new - old` — and
records no edit script at all. -/
theorem c3_section_diff_amended (annot : String → String → Except String String) :
    unifiedDiff ["x", "y"] ["x", "z"]
        = ["--- ", "+++ ", "@@ -1,2 +1,2 @@", " x", "-y", "+z"]
    ∧ sectionBody (findSection "## A\nx\ny" "A") = ["x", "y"]
    ∧ sectionBody (findSection "## A\nx\nz" "A") = ["x", "z"]
    ∧ ((calcComparisonStats annot "## A\nx\ny" "## A\nx\nz").section_changes.map
        SectionChange.shape) = [("A", 2, 2, 6)] := by
  refine ⟨by decide, by decide, by decide, ?_⟩
  rw [sectionChanges_shape_indep annot annotRaises "## A\nx\ny" "## A\nx\nz"]
  decide

/-- Helper for C9: the `re.split(r"(?=## )", ...)` worker yields a single
piece when the text contains no occurrence of `"## "`. -/
theorem reSplitHeadingGo_no_heading :
    ∀ (cs acc : List Char), hasHeadingOcc cs = false →
      reSplitHeadingGo cs acc = [acc.reverse ++ cs]
  | [], acc => by
    intro _
    simp [reSplitHeadingGo]
  | c :: rest, acc => by
    intro h
    unfold hasHeadingOcc at h
    rw [Bool.or_eq_false_iff] at h
    obtain ⟨h1, h2⟩ := h
    unfold reSplitHeadingGo
    rw [if_neg (by simp [h1])]
    rw [reSplitHeadingGo_no_heading rest (c :: acc) h2]
    simp

/-- Claim C9 counterexample: the document "Hello" contains no heading line,
yet its single section's title is "Hello" — the first line stripped of
`'#'` and `' '` — and not the empty string the claim requires. -/
theorem c9_splitter_counterexample :
    splitSections "Hello" = ["Hello"]
    ∧ sectionTitle "Hello" = "Hello"
    ∧ sectionTitle "Hello" ≠ "" := by
  decide

/-- Claim C9 amended: a document without any occurrence of `"## "` yields
exactly one section piece, the whole document; in general a piece's title
is its FIRST LINE with `'#'` and `' '` stripped from BOTH ends (so it is
empty only when the first line consists of those characters), as the
concrete evaluations illustrate, and its body is the lines after the
first. -/
theorem c9_splitter_amended (content : String)
    (h : hasHeadingOcc content.data = false) :
    splitSections content = [content]
    ∧ sectionTitle content = pyStrip hashSpaceChars (firstLineOf content)
    ∧ sectionBody content = (pySplitNl content).tail
    ∧ sectionTitle "## Setup ##" = "Setup"
    ∧ sectionTitle "Hello" = "Hello" := by
  refine ⟨?_, rfl, rfl, by decide, by decide⟩
  unfold splitSections
  rw [reSplitHeadingGo_no_heading content.data [] h]
  obtain ⟨d⟩ := content
  rfl

/-- Witness for C9's amended theorem at the heading-free document
"Hello\nWorld". -/
theorem c9_splitter_amended_witness :
    splitSections "Hello\nWorld" = ["Hello\nWorld"]
    ∧ sectionTitle "Hello\nWorld" = pyStrip hashSpaceChars (firstLineOf "Hello\nWorld")
    ∧ sectionBody "Hello\nWorld" = (pySplitNl "Hello\nWorld").tail
    ∧ sectionTitle "## Setup ##" = "Setup"
    ∧ sectionTitle "Hello" = "Hello" :=
  c9_splitter_amended "Hello\nWorld" (by decide)

/-- Claim C4 (code bug): with two prior exports in the store and the
parameters still readable from the last message, `_compare_summaries`
locates and reads a prior file, computes and stores `comparison_stats` —
and then the `unified_diff(...)` call raises `NameError` because
`agent/summarizer.py` never imports `unified_diff`; the exception is
caught into an error message and `diff_result` is NEVER assigned, contrary
to the claim.  (In a full pipeline run the stage fails even earlier — see
the C8 theorems — because the parameters cannot be re-parsed from the last
chat message.) -/
theorem c4_diff_result_never_set (annot : String → String → Except String String) :
    compareSummaries annot storeTwo stWithSummary
      = { stWithSummary with
          comparison_stats :=
            some (calcComparisonStats annot "Old text" "## Intro\nNew body"),
          messages := stWithSummary.messages
            ++ [MsgContent.text ("Error comparing summaries: " ++ nameErrUnifiedDiff)] }
    ∧ (compareSummaries annot storeTwo stWithSummary).diff_result = none := by
  have h1 : compareSummaries annot storeTwo stWithSummary
      = { stWithSummary with
          comparison_stats :=
            some (calcComparisonStats annot "Old text" "## Intro\nNew body"),
          messages := stWithSummary.messages
            ++ [MsgContent.text ("Error comparing summaries: " ++ nameErrUnifiedDiff)] } := rfl
  exact ⟨h1, by rw [h1]; rfl⟩

/-- Claim C5 (code bug): on a state with export requested and a summary
present, `_export_summary` raises `NameError` evaluating `os.getlogin()`
(`agent/summarizer.py` never imports `os`): the exception is caught into
an error message, NO file is written to the store and `export_path` stays
`None`, contrary to the claim.  (In a full pipeline run the stage fails
even earlier, re-parsing the parameters from the last chat message — see
the C8 theorems.) -/
theorem c5_export_never_writes (store : List (String × String)) :
    exportSummary stWithSummary store
      = ({ stWithSummary with
            messages := stWithSummary.messages
              ++ [MsgContent.text ("Error exporting summary: " ++ nameErrOs)] }, store)
    ∧ (exportSummary stWithSummary store).1.export_path = none
    ∧ (exportSummary stWithSummary store).2 = store :=
  ⟨rfl, rfl, rfl⟩

/-- Claim C6 (code bug): with EXACTLY ONE prior export for the scope key in
the store (and `_compare_summaries` running before `_export_summary`, so
no current-run file exists), the stage requires strictly more than one
matching file before comparing and indexes `previous_files[1]`; with a
single prior export it therefore returns the state unchanged — no prior is
loaded and no comparison happens, contrary to the claim. -/
theorem c6_single_prior_skipped (annot : String → String → Except String String) :
    compareSummaries annot storeOne stWithSummary = stWithSummary
    ∧ (compareSummaries annot storeOne stWithSummary).comparison_stats = none :=
  ⟨rfl, rfl⟩

/-- Claim C8 counterexample: a concrete run whose fetch raises.  The
pipeline does NOT halt before generation: all five stages execute, and the
generation stage's own error message (fourth entry) appears in the final
message list — the stage ran and soft-failed rather than never being
executed. -/
theorem c8_no_halt_counterexample :
    (runPipeline fetchFails llmFixed annotRaises paramsSP []).1.messages
      = [MsgContent.params paramsSP,
         MsgContent.text "Error loading content: Page not found",
         MsgContent.text "Documents loaded successfully. Preparing for summarization...",
         MsgContent.text ("Error generating summary: " ++ jsonDecodeErrorMsg),
         MsgContent.text ("Error comparing summaries: " ++ jsonDecodeErrorMsg),
         MsgContent.text ("Error exporting summary: " ++ jsonDecodeErrorMsg)]
    ∧ MsgContent.text ("Error generating summary: " ++ jsonDecodeErrorMsg)
        ∈ (runPipeline fetchFails llmFixed annotRaises paramsSP []).1.messages := by
  exact ⟨by decide, by decide⟩

/-- Claim C8 amended: when loading raises, the pipeline CONTINUES through
all five stages instead of halting: prepare appends its status message,
the generation stage still executes — it soft-fails re-parsing the
parameters from the last message, records its error message and leaves
`summary = None` — and compare and export likewise run and soft-fail; the
store is untouched. -/
theorem c8_load_failure_amended (p : Params) (e : String)
    (fetch : String → Option String → Bool → Except String (List Document))
    (llm : Params → String → Except String String)
    (annot : String → String → Except String String)
    (store : List (String × String))
    (hfetch : fetch p.space_key p.page_id p.include_children = Except.error e) :
    (runPipeline fetch llm annot p store).1.summary = none
    ∧ (runPipeline fetch llm annot p store).1.messages
        = [MsgContent.params p,
           MsgContent.text ("Error loading content: " ++ e),
           MsgContent.text "Documents loaded successfully. Preparing for summarization...",
           MsgContent.text ("Error generating summary: " ++ jsonDecodeErrorMsg),
           MsgContent.text ("Error comparing summaries: " ++ jsonDecodeErrorMsg),
           MsgContent.text ("Error exporting summary: " ++ jsonDecodeErrorMsg)]
    ∧ (runPipeline fetch llm annot p store).2 = store := by
  have hload : loadContent fetch (initialState p)
      = appendMsg (initialState p) ("Error loading content: " ++ e) := by
    unfold loadContent initialState
    simp [jsonLoadsParams, lastMsg, lastMsgFrom, hfetch]
  unfold runPipeline
  rw [hload]
  exact ⟨rfl, rfl, rfl⟩

/-- Witness for C8's amended theorem at a concrete failing fetch. -/
theorem c8_load_failure_amended_witness :
    (runPipeline fetchFails llmFixed annotRaises paramsSP []).1.summary = none
    ∧ (runPipeline fetchFails llmFixed annotRaises paramsSP []).1.messages
        = [MsgContent.params paramsSP,
           MsgContent.text ("Error loading content: " ++ "Page not found"),
           MsgContent.text "Documents loaded successfully. Preparing for summarization...",
           MsgContent.text ("Error generating summary: " ++ jsonDecodeErrorMsg),
           MsgContent.text ("Error comparing summaries: " ++ jsonDecodeErrorMsg),
           MsgContent.text ("Error exporting summary: " ++ jsonDecodeErrorMsg)]
    ∧ (runPipeline fetchFails llmFixed annotRaises paramsSP []).2 = [] :=
  c8_load_failure_amended paramsSP "Page not found" fetchFails llmFixed annotRaises [] rfl

end ConfluenceSummarizer
